import Mathlib

/-
Verification of the meshtastic-monitor collector-to-central sync pipeline.

The development shallowly embeds:
  * the local SQLite store (`mesh_monitor/db.py`): nodes keyed by node_id,
    append tables keyed by a surrogate integer id, the nullable `synced_at`
    marker, `upsert_node`, `get_unsynced_records`, `get_unsynced_count` and
    `mark_synced`;
  * the sync client (`mesh_monitor/sync.py`): `sync_once` against an abstract
    HTTP transport, and the background loop's exponential backoff;
  * the central merge service (`synology/sync_api/app.py`): bearer-token
    authentication, payload validation, and the per-table bulk writes
    (`_upsert_nodes`, `_insert_positions`, `_insert_device_metrics`,
    `_insert_messages`, `_upsert_gateways`, `_update_collector`).

Machine integers are modelled as `Nat`/`Int`; SQL `REAL` columns
(latitude/longitude, voltage, ...) are carried as `Option Int` — no claim
computes on them, they are only stored and compared for (in)equality.
Timestamps (`TIMESTAMP` columns, `NOW()`, `CURRENT_TIMESTAMP`) are `Nat`
time points passed in explicitly.
-/

namespace MeshMon

/-- SQL COALESCE on two nullable values: the first non-null argument. -/
def coalesce {α : Type} : Option α → Option α → Option α
  | some a, _ => some a
  | none, b => b

/-- Postgres GREATEST on two nullable naturals: null operands are ignored,
the result is null only when both are. -/
def greatestOpt : Option Nat → Option Nat → Option Nat
  | none, b => b
  | some a, none => some a
  | some a, some b => some (max a b)

theorem coalesce_none_left {α : Type} (b : Option α) : coalesce none b = b := rfl

theorem coalesce_some_left {α : Type} (a : α) (b : Option α) :
    coalesce (some a) b = some a := rfl

/-- Re-coalescing the same incoming value is absorbed. -/
theorem coalesce_left_absorb {α : Type} (a b : Option α) :
    coalesce a (coalesce a b) = coalesce a b := by
  cases a <;> rfl

/-- Coalescing a value with itself gives it back. -/
theorem coalesce_self {α : Type} (a : Option α) : coalesce a a = a := by
  cases a <;> rfl

/-- Re-taking the greatest with the same incoming value is absorbed. -/
theorem greatestOpt_right_absorb (a b : Option Nat) :
    greatestOpt (greatestOpt a b) b = greatestOpt a b := by
  cases a <;> cases b <;> simp [greatestOpt, Nat.max_assoc]

/-- Greatest of a value and itself gives it back. -/
theorem greatestOpt_self (a : Option Nat) : greatestOpt a a = a := by
  cases a <;> simp [greatestOpt]

/-
Generic keyed-table machinery.

Both SQLite and Postgres `INSERT ... ON CONFLICT (key) DO UPDATE` statements
are embedded as operations on association lists `List (κ × ρ)`: a conflicting
key updates the stored row in place (preserving row order), a fresh key
appends a new row at the end (mirroring rowid/serial insertion order).
-/

section KeyedTable

variable {κ ρ α : Type} [DecidableEq κ]

/-- First row stored under key `k`, if any. -/
def lookupKey (k : κ) : List (κ × ρ) → Option ρ
  | [] => none
  | e :: es => if e.1 = k then some e.2 else lookupKey k es

/-- Apply `f` to every row stored under key `k`, in place. -/
def updAt (k : κ) (f : ρ → ρ) (tbl : List (κ × ρ)) : List (κ × ρ) :=
  tbl.map (fun e => if e.1 = k then (e.1, f e.2) else e)

/-- INSERT ... ON CONFLICT (k) DO UPDATE: update the conflicting row with
`f`, or append the fresh row `fr` when the key is absent. -/
def kupsert (k : κ) (fr : ρ) (f : ρ → ρ) (tbl : List (κ × ρ)) : List (κ × ρ) :=
  match lookupKey k tbl with
  | some _ => updAt k f tbl
  | none => tbl ++ [(k, fr)]

/-- Bulk upsert: fold the per-record upsert over the batch, in order. -/
def applyRecs (key : α → κ) (fr : α → ρ) (upd : α → ρ → ρ)
    (recs : List α) (tbl : List (κ × ρ)) : List (κ × ρ) :=
  recs.foldl (fun acc r => kupsert (key r) (fr r) (upd r) acc) tbl

/-- Apply `stamp` to every row whose key lies in `ks`. -/
def stampIf (ks : List κ) (stamp : ρ → ρ) (tbl : List (κ × ρ)) : List (κ × ρ) :=
  tbl.map (fun e => if e.1 ∈ ks then (e.1, stamp e.2) else e)

/-- Every row stored under key `k` satisfies `P`. -/
def EntriesAt (k : κ) (P : ρ → Prop) (tbl : List (κ × ρ)) : Prop :=
  ∀ e, e ∈ tbl → e.1 = k → P e.2

theorem lookupKey_cons (k a : κ) (b : ρ) (es : List (κ × ρ)) :
    lookupKey k ((a, b) :: es) = if a = k then some b else lookupKey k es := rfl

theorem updAt_cons (k : κ) (f : ρ → ρ) (a : κ) (b : ρ) (es : List (κ × ρ)) :
    updAt k f ((a, b) :: es)
      = (if a = k then (a, f b) else (a, b)) :: updAt k f es := by
  by_cases h : a = k <;> simp [updAt, h]

theorem stampIf_cons (ks : List κ) (stamp : ρ → ρ) (a : κ) (b : ρ)
    (es : List (κ × ρ)) :
    stampIf ks stamp ((a, b) :: es)
      = (if a ∈ ks then (a, stamp b) else (a, b)) :: stampIf ks stamp es := by
  by_cases h : a ∈ ks <;> simp [stampIf, h]

theorem applyRecs_nil (key : α → κ) (fr : α → ρ) (upd : α → ρ → ρ)
    (tbl : List (κ × ρ)) : applyRecs key fr upd [] tbl = tbl := rfl

theorem applyRecs_cons (key : α → κ) (fr : α → ρ) (upd : α → ρ → ρ)
    (r : α) (recs : List α) (tbl : List (κ × ρ)) :
    applyRecs key fr upd (r :: recs) tbl
      = applyRecs key fr upd recs (kupsert (key r) (fr r) (upd r) tbl) := rfl

theorem lookupKey_append (k : κ) (t1 t2 : List (κ × ρ)) :
    lookupKey k (t1 ++ t2)
      = match lookupKey k t1 with
        | some v => some v
        | none => lookupKey k t2 := by
  induction t1 with
  | nil => simp [lookupKey]
  | cons e es ih =>
    obtain ⟨a, b⟩ := e
    by_cases h : a = k
    · simp [lookupKey_cons, h]
    · simp only [List.cons_append, lookupKey_cons, if_neg h, ih]

theorem lookupKey_updAt_ne (k k2 : κ) (f : ρ → ρ) (tbl : List (κ × ρ))
    (h : k ≠ k2) : lookupKey k (updAt k2 f tbl) = lookupKey k tbl := by
  induction tbl with
  | nil => rfl
  | cons e es ih =>
    obtain ⟨a, b⟩ := e
    rw [updAt_cons]
    by_cases ha2 : a = k2
    · have ha1 : a ≠ k := fun hk => h (hk.symm.trans ha2)
      rw [if_pos ha2, lookupKey_cons, lookupKey_cons, if_neg ha1, if_neg ha1, ih]
    · rw [if_neg ha2]
      by_cases ha1 : a = k
      · rw [lookupKey_cons, lookupKey_cons, if_pos ha1, if_pos ha1]
      · rw [lookupKey_cons, lookupKey_cons, if_neg ha1, if_neg ha1, ih]

theorem lookupKey_updAt_self (k : κ) (f : ρ → ρ) (tbl : List (κ × ρ)) :
    lookupKey k (updAt k f tbl) = (lookupKey k tbl).map f := by
  induction tbl with
  | nil => rfl
  | cons e es ih =>
    obtain ⟨a, b⟩ := e
    rw [updAt_cons]
    by_cases ha : a = k
    · rw [if_pos ha, lookupKey_cons, lookupKey_cons, if_pos ha, if_pos ha]
      rfl
    · rw [if_neg ha, lookupKey_cons, lookupKey_cons, if_neg ha, if_neg ha, ih]

theorem lookupKey_kupsert_self (k : κ) (fr : ρ) (f : ρ → ρ)
    (tbl : List (κ × ρ)) :
    lookupKey k (kupsert k fr f tbl)
      = some (match lookupKey k tbl with
              | some v => f v
              | none => fr) := by
  unfold kupsert
  cases h : lookupKey k tbl with
  | some v => simp [lookupKey_updAt_self, h]
  | none => simp [lookupKey_append, h, lookupKey]

theorem lookupKey_kupsert_ne (k k2 : κ) (fr : ρ) (f : ρ → ρ)
    (tbl : List (κ × ρ)) (h : k ≠ k2) :
    lookupKey k (kupsert k2 fr f tbl) = lookupKey k tbl := by
  unfold kupsert
  cases h2 : lookupKey k2 tbl with
  | some v => exact lookupKey_updAt_ne k k2 f tbl h
  | none =>
    rw [lookupKey_append]
    cases h3 : lookupKey k tbl with
    | some v => rfl
    | none => simp [lookupKey, Ne.symm h]

theorem lookupKey_applyRecs_notMem (key : α → κ) (fr : α → ρ)
    (upd : α → ρ → ρ) (recs : List α) (tbl : List (κ × ρ)) (k : κ)
    (h : k ∉ recs.map key) :
    lookupKey k (applyRecs key fr upd recs tbl) = lookupKey k tbl := by
  induction recs generalizing tbl with
  | nil => rfl
  | cons r rest ih =>
    simp only [List.map_cons, List.mem_cons] at h
    push_neg at h
    rw [applyRecs_cons, ih _ h.2, lookupKey_kupsert_ne _ _ _ _ _ h.1]

theorem updAt_comm (k k2 : κ) (f g : ρ → ρ) (tbl : List (κ × ρ))
    (h : k ≠ k2) :
    updAt k f (updAt k2 g tbl) = updAt k2 g (updAt k f tbl) := by
  induction tbl with
  | nil => rfl
  | cons e es ih =>
    obtain ⟨a, b⟩ := e
    rw [updAt_cons, updAt_cons]
    by_cases ha2 : a = k2
    · have ha1 : a ≠ k := fun hk => h (hk.symm.trans ha2)
      rw [if_pos ha2, if_neg ha1, updAt_cons, updAt_cons, if_neg ha1,
        if_pos ha2, ih]
    · rw [if_neg ha2]
      by_cases ha1 : a = k
      · rw [if_pos ha1, updAt_cons, updAt_cons, if_pos ha1, if_neg ha2, ih]
      · rw [if_neg ha1, updAt_cons, updAt_cons, if_neg ha1, if_neg ha2, ih]

theorem updAt_append (k : κ) (f : ρ → ρ) (t1 t2 : List (κ × ρ)) :
    updAt k f (t1 ++ t2) = updAt k f t1 ++ updAt k f t2 := by
  simp [updAt]

theorem kupsert_updAt_comm (k k2 : κ) (fr : ρ) (f g : ρ → ρ)
    (tbl : List (κ × ρ)) (h : k ≠ k2) :
    kupsert k fr f (updAt k2 g tbl) = updAt k2 g (kupsert k fr f tbl) := by
  unfold kupsert
  rw [lookupKey_updAt_ne k k2 g tbl h]
  cases h2 : lookupKey k tbl with
  | some v => exact updAt_comm k k2 f g tbl h
  | none =>
    rw [updAt_append]
    have hsingle : updAt k2 g [(k, fr)] = [(k, fr)] := by
      rw [updAt_cons, if_neg h]
      rfl
    rw [hsingle]

theorem applyRecs_updAt_comm (key : α → κ) (fr : α → ρ) (upd : α → ρ → ρ)
    (recs : List α) (k : κ) (g : ρ → ρ) (tbl : List (κ × ρ))
    (h : k ∉ recs.map key) :
    applyRecs key fr upd recs (updAt k g tbl)
      = updAt k g (applyRecs key fr upd recs tbl) := by
  induction recs generalizing tbl with
  | nil => rfl
  | cons r rest ih =>
    simp only [List.map_cons, List.mem_cons] at h
    push_neg at h
    rw [applyRecs_cons, applyRecs_cons,
      kupsert_updAt_comm _ _ _ _ _ _ (fun hk => h.1 hk.symm), ih _ h.2]

theorem entriesAt_of_lookup_none (k : κ) (P : ρ → Prop) (tbl : List (κ × ρ))
    (h : lookupKey k tbl = none) : EntriesAt k P tbl := by
  induction tbl with
  | nil => intro e he; simp at he
  | cons e es ih =>
    obtain ⟨a, b⟩ := e
    rw [lookupKey_cons] at h
    by_cases hk : a = k
    · rw [if_pos hk] at h
      exact absurd h (by simp)
    · rw [if_neg hk] at h
      intro x hx hxk
      rcases List.mem_cons.1 hx with hx | hx
      · rw [hx] at hxk
        exact absurd hxk hk
      · exact ih h x hx hxk

theorem entriesAt_updAt_self (k : κ) (P : ρ → Prop) (f : ρ → ρ)
    (tbl : List (κ × ρ)) (hf : ∀ x, P (f x)) :
    EntriesAt k P (updAt k f tbl) := by
  intro e he _
  rcases List.mem_map.1 he with ⟨x, _, hx⟩
  subst hx
  by_cases hxk : x.1 = k
  · simp only [if_pos hxk]
    exact hf _
  · simp only [if_neg hxk]
    exact absurd (by simpa [hxk] using ‹(if x.1 = k then (x.1, f x.2) else x).1 = k›) hxk

theorem entriesAt_kupsert_self (k : κ) (P : ρ → Prop) (fr : ρ) (f : ρ → ρ)
    (tbl : List (κ × ρ)) (hf : ∀ x, P (f x)) (hfr : P fr) :
    EntriesAt k P (kupsert k fr f tbl) := by
  unfold kupsert
  cases h : lookupKey k tbl with
  | some v => exact entriesAt_updAt_self k P f tbl hf
  | none =>
    intro e he hek
    rcases List.mem_append.1 he with he | he
    · exact entriesAt_of_lookup_none k P tbl h e he hek
    · simp only [List.mem_singleton] at he
      subst he
      exact hfr

theorem entriesAt_updAt_ne (k k2 : κ) (P : ρ → Prop) (g : ρ → ρ)
    (tbl : List (κ × ρ)) (h : k ≠ k2) (hP : EntriesAt k P tbl) :
    EntriesAt k P (updAt k2 g tbl) := by
  intro e he hek
  rcases List.mem_map.1 he with ⟨x, hxmem, hx⟩
  subst hx
  by_cases hxk : x.1 = k2
  · rw [if_pos hxk] at hek ⊢
    exact absurd (hek.symm.trans hxk) h
  · rw [if_neg hxk] at hek ⊢
    exact hP x hxmem hek

theorem entriesAt_kupsert_ne (k k2 : κ) (P : ρ → Prop) (fr : ρ) (g : ρ → ρ)
    (tbl : List (κ × ρ)) (h : k ≠ k2) (hP : EntriesAt k P tbl) :
    EntriesAt k P (kupsert k2 fr g tbl) := by
  unfold kupsert
  cases h2 : lookupKey k2 tbl with
  | some v => exact entriesAt_updAt_ne k k2 P g tbl h hP
  | none =>
    intro e he hek
    rcases List.mem_append.1 he with he | he
    · exact hP e he hek
    · simp only [List.mem_singleton] at he
      subst he
      exact absurd hek.symm h

theorem entriesAt_applyRecs (key : α → κ) (fr : α → ρ) (upd : α → ρ → ρ)
    (recs : List α) (tbl : List (κ × ρ)) (k : κ) (P : ρ → Prop)
    (h : k ∉ recs.map key) (hP : EntriesAt k P tbl) :
    EntriesAt k P (applyRecs key fr upd recs tbl) := by
  induction recs generalizing tbl with
  | nil => exact hP
  | cons r rest ih =>
    simp only [List.map_cons, List.mem_cons] at h
    push_neg at h
    rw [applyRecs_cons]
    exact ih _ h.2 (entriesAt_kupsert_ne k (key r) P (fr r) (upd r) tbl h.1 hP)

theorem kupsert_eq_updAt_of_entries (k : κ) (fr : ρ) (f g : ρ → ρ)
    (tbl : List (κ × ρ)) (v : ρ) (hl : lookupKey k tbl = some v)
    (hE : EntriesAt k (fun x => f x = g x) tbl) :
    kupsert k fr f tbl = updAt k g tbl := by
  unfold kupsert
  rw [hl]
  unfold updAt
  refine List.map_congr_left ?_
  intro e he
  by_cases hk : e.1 = k
  · simp only [if_pos hk, hE e he hk]
  · simp only [if_neg hk]

theorem stampIf_nil_keys (stamp : ρ → ρ) (tbl : List (κ × ρ)) :
    stampIf [] stamp tbl = tbl := by
  simp [stampIf]

theorem updAt_stampIf_cons (k : κ) (ks : List κ) (stamp : ρ → ρ)
    (tbl : List (κ × ρ)) (h : k ∉ ks) :
    updAt k stamp (stampIf ks stamp tbl) = stampIf (k :: ks) stamp tbl := by
  induction tbl with
  | nil => rfl
  | cons e es ih =>
    obtain ⟨a, b⟩ := e
    rw [stampIf_cons, stampIf_cons]
    by_cases hmem : a ∈ ks
    · have hak : a ≠ k := fun hk => h (hk ▸ hmem)
      rw [if_pos hmem, updAt_cons, if_neg hak, ih,
        if_pos (List.mem_cons.2 (Or.inr hmem))]
    · rw [if_neg hmem, updAt_cons]
      by_cases hak : a = k
      · rw [if_pos hak, ih, if_pos (List.mem_cons.2 (Or.inl hak))]
      · rw [if_neg hak, ih, if_neg (by simp [hak, hmem])]

/-- Replaying the same batch over an already-merged table only re-stamps the
rows whose keys occur in the batch. Hypotheses: re-updating an already
updated or freshly inserted row amounts to stamping it (`hUU`, `hUF`), and
the batch touches each key at most once (`hnd`). -/
theorem applyRecs_idem (key : α → κ) (fr : α → ρ) (upd1 upd2 : α → ρ → ρ)
    (stamp : ρ → ρ) (recs : List α) (tbl : List (κ × ρ))
    (hUU : ∀ a x, upd2 a (upd1 a x) = stamp (upd1 a x))
    (hUF : ∀ a, upd2 a (fr a) = stamp (fr a))
    (hnd : (recs.map key).Nodup) :
    applyRecs key fr upd2 recs (applyRecs key fr upd1 recs tbl)
      = stampIf (recs.map key) stamp (applyRecs key fr upd1 recs tbl) := by
  induction recs generalizing tbl with
  | nil => exact (stampIf_nil_keys stamp tbl).symm
  | cons r rest ih =>
    simp only [List.map_cons, List.nodup_cons] at hnd
    have hout : key r ∉ rest.map key := hnd.1
    have hndr : (rest.map key).Nodup := hnd.2
    rw [applyRecs_cons, applyRecs_cons]
    have hlook : lookupKey (key r)
        (applyRecs key fr upd1 rest (kupsert (key r) (fr r) (upd1 r) tbl))
        = some (match lookupKey (key r) tbl with
                | some v => upd1 r v
                | none => fr r) := by
      rw [lookupKey_applyRecs_notMem _ _ _ _ _ _ hout, lookupKey_kupsert_self]
    have hE : EntriesAt (key r) (fun x => upd2 r x = stamp x)
        (applyRecs key fr upd1 rest (kupsert (key r) (fr r) (upd1 r) tbl)) := by
      refine entriesAt_applyRecs key fr upd1 rest _ (key r) _ hout ?_
      exact entriesAt_kupsert_self _ _ _ _ _ (hUU r) (hUF r)
    rw [kupsert_eq_updAt_of_entries _ (fr r) (upd2 r) stamp _ _ hlook hE,
      applyRecs_updAt_comm _ _ _ _ _ _ _ hout, ih _ hndr,
      updAt_stampIf_cons _ _ _ _ hout]
    rfl

/-- Length is preserved by stamping. -/
theorem stampIf_length (ks : List κ) (stamp : ρ → ρ) (tbl : List (κ × ρ)) :
    (stampIf ks stamp tbl).length = tbl.length := by
  simp [stampIf]

theorem lookupKey_some_mem (k : κ) (tbl : List (κ × ρ)) (v : ρ)
    (h : lookupKey k tbl = some v) : (k, v) ∈ tbl := by
  induction tbl with
  | nil => simp [lookupKey] at h
  | cons e es ih =>
    obtain ⟨a, b⟩ := e
    rw [lookupKey_cons] at h
    by_cases ha : a = k
    · rw [if_pos ha] at h
      obtain rfl := Option.some.inj h
      rw [← ha]
      exact List.mem_cons_self _ _
    · rw [if_neg ha] at h
      exact List.mem_cons_of_mem _ (ih h)

theorem updAt_length (k : κ) (f : ρ → ρ) (tbl : List (κ × ρ)) :
    (updAt k f tbl).length = tbl.length := by
  simp [updAt]

theorem kupsert_length_le (k : κ) (fr : ρ) (f : ρ → ρ) (tbl : List (κ × ρ)) :
    (kupsert k fr f tbl).length ≤ tbl.length + 1 := by
  unfold kupsert
  cases h : lookupKey k tbl with
  | some v => rw [updAt_length]; omega
  | none => simp

theorem kupsert_length_of_some (k : κ) (fr : ρ) (f : ρ → ρ)
    (tbl : List (κ × ρ)) (v : ρ) (h : lookupKey k tbl = some v) :
    (kupsert k fr f tbl).length = tbl.length := by
  unfold kupsert
  rw [h, updAt_length]

end KeyedTable

/-
Local store (`mesh_monitor/db.py`). Tables are embedded as lists of rows in
rowid order: the `nodes` table keyed by its `node_id` primary key, the
append tables carrying their surrogate integer `id` inside the row.
-/

/-- Row of the local `nodes` table. -/
structure LNode where
  node_num : Option Int := none
  long_name : Option String := none
  short_name : Option String := none
  hw_model : Option String := none
  firmware_version : Option String := none
  mac_addr : Option String := none
  first_seen : Option Nat := none
  last_seen : Option Nat := none
  collector_id : Option String := none
  synced_at : Option Nat := none
deriving DecidableEq

/-- Row of the local `positions` table. -/
structure LPosition where
  id : Nat
  node_id : String
  timestamp : Nat
  latitude : Option Int := none
  longitude : Option Int := none
  altitude : Option Int := none
  location_source : Option String := none
  collector_id : Option String := none
  synced_at : Option Nat := none
deriving DecidableEq

/-- Row of the local `device_metrics` table. -/
structure LDeviceMetrics where
  id : Nat
  node_id : String
  timestamp : Nat
  battery_level : Option Int := none
  voltage : Option Int := none
  channel_utilization : Option Int := none
  air_util_tx : Option Int := none
  uptime_seconds : Option Int := none
  collector_id : Option String := none
  synced_at : Option Nat := none
deriving DecidableEq

/-- Row of the local `messages` table. -/
structure LMessage where
  id : Nat
  timestamp : Nat
  from_node : Option String := none
  to_node : Option String := none
  channel : Option Int := none
  text : Option String := none
  port_num : Option String := none
  gateway_id : Option Nat := none
  collector_id : Option String := none
  synced_at : Option Nat := none
deriving DecidableEq

/-- Row of the local `gateways` table. -/
structure LGateway where
  id : Nat
  host : String
  port : Int
  node_id : Option String := none
  first_seen : Option Nat := none
  last_seen : Option Nat := none
  collector_id : Option String := none
  synced_at : Option Nat := none
deriving DecidableEq

/-- State of the local SQLite database, plus the `Database.collector_id`
configured at construction. -/
structure LocalDB where
  nodes : List (String × LNode) := []
  positions : List LPosition := []
  device_metrics : List LDeviceMetrics := []
  messages : List LMessage := []
  gateways : List LGateway := []
  collector_id : Option String := none
deriving DecidableEq

/-- Optional arguments of `Database.upsert_node` (all default to None). -/
structure NodeParams where
  node_num : Option Int := none
  long_name : Option String := none
  short_name : Option String := none
  hw_model : Option String := none
  firmware_version : Option String := none
  mac_addr : Option String := none
deriving DecidableEq

/-- Insert arm of `upsert_node`: the column list carries no `synced_at`
(left NULL) and `first_seen` takes the schema default CURRENT_TIMESTAMP;
`last_seen` is CURRENT_TIMESTAMP. -/
def freshLNode (cid : Option String) (p : NodeParams) (now : Nat) : LNode :=
  { node_num := p.node_num, long_name := p.long_name,
    short_name := p.short_name, hw_model := p.hw_model,
    firmware_version := p.firmware_version, mac_addr := p.mac_addr,
    first_seen := some now, last_seen := some now,
    collector_id := cid, synced_at := none }

/-- ON CONFLICT(node_id) DO UPDATE arm of `upsert_node`: the six scalar
fields coalesce (incoming value wins only when non-null), `last_seen`
becomes CURRENT_TIMESTAMP, `synced_at` is reset to NULL; `first_seen` and
`collector_id` are not in the SET list. -/
def mergeLNode (p : NodeParams) (now : Nat) (r : LNode) : LNode :=
  { r with
    node_num := coalesce p.node_num r.node_num,
    long_name := coalesce p.long_name r.long_name,
    short_name := coalesce p.short_name r.short_name,
    hw_model := coalesce p.hw_model r.hw_model,
    firmware_version := coalesce p.firmware_version r.firmware_version,
    mac_addr := coalesce p.mac_addr r.mac_addr,
    last_seen := some now, synced_at := none }

/-- `Database.upsert_node`. -/
def upsert_node (db : LocalDB) (node_id : String) (p : NodeParams)
    (now : Nat) : LocalDB :=
  { db with
    nodes := kupsert node_id (freshLNode db.collector_id p now)
      (mergeLNode p now) db.nodes }

/-- Result shape of `Database.get_unsynced_records`. -/
structure UnsyncedRecords where
  nodes : List (String × LNode)
  positions : List LPosition
  device_metrics : List LDeviceMetrics
  messages : List LMessage
  gateways : List LGateway
deriving DecidableEq

/-- `Database.get_unsynced_records`: per table, up to `limit` rows whose
`synced_at` IS NULL, in stored order. -/
def get_unsynced_records (db : LocalDB) (limit : Nat) : UnsyncedRecords :=
  { nodes := (db.nodes.filter (fun e => e.2.synced_at.isNone)).take limit,
    positions := (db.positions.filter (fun r => r.synced_at.isNone)).take limit,
    device_metrics :=
      (db.device_metrics.filter (fun r => r.synced_at.isNone)).take limit,
    messages := (db.messages.filter (fun r => r.synced_at.isNone)).take limit,
    gateways := (db.gateways.filter (fun r => r.synced_at.isNone)).take limit }

/-- Result shape of `Database.get_unsynced_count`. -/
structure UnsyncedCount where
  nodes : Nat
  positions : Nat
  device_metrics : Nat
  messages : Nat
  gateways : Nat
deriving DecidableEq

/-- `Database.get_unsynced_count`: per-table COUNT of rows whose
`synced_at` IS NULL. -/
def get_unsynced_count (db : LocalDB) : UnsyncedCount :=
  { nodes := (db.nodes.filter (fun e => e.2.synced_at.isNone)).length,
    positions := (db.positions.filter (fun r => r.synced_at.isNone)).length,
    device_metrics :=
      (db.device_metrics.filter (fun r => r.synced_at.isNone)).length,
    messages := (db.messages.filter (fun r => r.synced_at.isNone)).length,
    gateways := (db.gateways.filter (fun r => r.synced_at.isNone)).length }

/-- Argument shape of `Database.mark_synced`: per-table identifier lists
(node_id for `nodes`, surrogate id for the other tables). -/
structure MarkRecords where
  nodes : List String := []
  positions : List Nat := []
  device_metrics : List Nat := []
  messages : List Nat := []
  gateways : List Nat := []
deriving DecidableEq

/-- `Database.mark_synced`: per table, `UPDATE ... SET synced_at = now WHERE
identifier IN (list)`; a table whose list is empty (falsy) is skipped. -/
def mark_synced (db : LocalDB) (rs : MarkRecords) (now : Nat) : LocalDB :=
  { db with
    nodes := if rs.nodes = [] then db.nodes else
      db.nodes.map (fun e => if e.1 ∈ rs.nodes
        then (e.1, { e.2 with synced_at := some now }) else e),
    positions := if rs.positions = [] then db.positions else
      db.positions.map (fun r => if r.id ∈ rs.positions
        then { r with synced_at := some now } else r),
    device_metrics := if rs.device_metrics = [] then db.device_metrics else
      db.device_metrics.map (fun r => if r.id ∈ rs.device_metrics
        then { r with synced_at := some now } else r),
    messages := if rs.messages = [] then db.messages else
      db.messages.map (fun r => if r.id ∈ rs.messages
        then { r with synced_at := some now } else r),
    gateways := if rs.gateways = [] then db.gateways else
      db.gateways.map (fun r => if r.id ∈ rs.gateways
        then { r with synced_at := some now } else r) }

/-
Sync client (`mesh_monitor/sync.py`).
-/

/-- Outcome of the HTTP POST performed by `_send_sync_request`: a
transport-level failure (`requests.RequestException`) or a response with a
status code. -/
inductive HttpResult where
  | transportError
  | response (status : Nat)
deriving DecidableEq

/-- `requests.Response.ok`: true exactly when the status code is below 400. -/
def respOk (status : Nat) : Bool := status < 400

/-- How `sync_once` terminates: raising the configuration `SyncError`,
raising a send-failure `SyncError`, or returning an ok result with its
`records_synced` count. -/
inductive SyncOutcome where
  | configError
  | syncError
  | ok (records_synced : Nat)
deriving DecidableEq

/-- Result of one `sync_once` run: its outcome, the local database
afterwards, and whether the transport and `mark_synced` were invoked. -/
structure SyncOnceResult where
  outcome : SyncOutcome
  db : LocalDB
  httpCalled : Bool
  markSyncedCalled : Bool
deriving DecidableEq

/-- `SyncService._extract_record_ids`: identifiers captured from the batch
read before the network call. -/
def extract_record_ids (u : UnsyncedRecords) : MarkRecords :=
  { nodes := u.nodes.map Prod.fst,
    positions := u.positions.map LPosition.id,
    device_metrics := u.device_metrics.map LDeviceMetrics.id,
    messages := u.messages.map LMessage.id,
    gateways := u.gateways.map LGateway.id }

/-- Total record count of a batch (`sum(len(records) for ...)`). -/
def unsyncedTotal (u : UnsyncedRecords) : Nat :=
  u.nodes.length + u.positions.length + u.device_metrics.length
    + u.messages.length + u.gateways.length

/-- `SyncService.sync_once`: raise on missing configuration; read up to 1000
unsynced rows per table; return ok/0 without any network call when the
total is zero; otherwise POST the batch — a transport error or a response
with `response.ok` false raises `SyncError` with nothing marked, and on an
ok response exactly the captured identifiers are marked synced. -/
def sync_once (configured : Bool) (db : LocalDB) (http : HttpResult)
    (now : Nat) : SyncOnceResult :=
  if configured = false then ⟨.configError, db, false, false⟩
  else
    let unsynced := get_unsynced_records db 1000
    let total := unsyncedTotal unsynced
    if total = 0 then ⟨.ok 0, db, false, false⟩
    else
      match http with
      | .transportError => ⟨.syncError, db, true, false⟩
      | .response status =>
        if respOk status then
          ⟨.ok total, mark_synced db (extract_record_ids unsynced) now,
            true, true⟩
        else ⟨.syncError, db, true, false⟩

/-- One turn of `_sync_loop`'s backoff variable: reset to 1 when the cycle's
`sync_once` succeeded, otherwise doubled and capped (`min(backoff * 2, 300)`). -/
def backoffStep (backoff : Nat) (success : Bool) : Nat :=
  if success then 1 else min (backoff * 2) 300

/-- Backoff value after a sequence of cycle outcomes, from the initial 1. -/
def runBackoff (outcomes : List Bool) : Nat := outcomes.foldl backoffStep 1

/-- Timeout of the wait at the bottom of each loop iteration:
`self._stop_event.wait(timeout=max(self.config.sync_interval, backoff))`. -/
def waitTimeout (sync_interval backoff : Nat) : Nat :=
  max sync_interval backoff

/-
Central merge service (`synology/sync_api/app.py`) over its Postgres store.
Wire records carry exactly the fields each `_insert`/`_upsert` helper reads
from the submitted row dictionaries with `.get` (absent keys read as null).
-/

/-- Wire record consumed by `_upsert_nodes` for one submitted node row. -/
structure NodeRec where
  node_id : String
  node_num : Option Int := none
  long_name : Option String := none
  short_name : Option String := none
  hw_model : Option String := none
  firmware_version : Option String := none
  mac_addr : Option String := none
  first_seen : Option Nat := none
  last_seen : Option Nat := none
deriving DecidableEq

/-- Wire record consumed by `_insert_positions`. -/
structure PosRec where
  node_id : String
  timestamp : Nat
  latitude : Option Int := none
  longitude : Option Int := none
  altitude : Option Int := none
  location_source : Option String := none
deriving DecidableEq

/-- Wire record consumed by `_insert_device_metrics`. -/
structure MetricRec where
  node_id : String
  timestamp : Nat
  battery_level : Option Int := none
  voltage : Option Int := none
  channel_utilization : Option Int := none
  air_util_tx : Option Int := none
  uptime_seconds : Option Int := none
deriving DecidableEq

/-- Wire record consumed by `_insert_messages`. -/
structure MsgRec where
  timestamp : Nat
  from_node : Option String := none
  to_node : Option String := none
  channel : Option Int := none
  text : Option String := none
  port_num : Option String := none
deriving DecidableEq

/-- Wire record consumed by `_upsert_gateways`. -/
structure GatewayRec where
  host : String
  port : Int
  node_id : Option String := none
  first_seen : Option Nat := none
  last_seen : Option Nat := none
deriving DecidableEq

/-- The `data` object of a sync payload; an absent table key behaves
exactly like an empty list (`data.get(name, [])`). -/
structure BatchData where
  nodes : List NodeRec := []
  positions : List PosRec := []
  device_metrics : List MetricRec := []
  messages : List MsgRec := []
  gateways : List GatewayRec := []
deriving DecidableEq

/-- Central `nodes` row (sans its key column `node_id`). -/
structure CNode where
  node_num : Option Int := none
  long_name : Option String := none
  short_name : Option String := none
  hw_model : Option String := none
  firmware_version : Option String := none
  mac_addr : Option String := none
  first_seen : Option Nat := none
  last_seen : Option Nat := none
  collector_id : Option String := none
  synced_at : Option Nat := none
deriving DecidableEq

/-- Central `positions` row; `synced_at` is always stamped NOW() by the
insert template. -/
structure CPosition where
  node_id : String
  timestamp : Nat
  latitude : Option Int
  longitude : Option Int
  altitude : Option Int
  location_source : Option String
  collector_id : String
  synced_at : Nat
deriving DecidableEq

/-- Central `device_metrics` row. -/
structure CDeviceMetrics where
  node_id : String
  timestamp : Nat
  battery_level : Option Int
  voltage : Option Int
  channel_utilization : Option Int
  air_util_tx : Option Int
  uptime_seconds : Option Int
  collector_id : String
  synced_at : Nat
deriving DecidableEq

/-- Central `messages` row. -/
structure CMessage where
  timestamp : Nat
  from_node : Option String
  to_node : Option String
  channel : Option Int
  text : Option String
  port_num : Option String
  collector_id : String
  synced_at : Nat
deriving DecidableEq

/-- Central `gateways` row (sans its key columns host, port, collector_id). -/
structure CGateway where
  node_id : Option String := none
  first_seen : Option Nat := none
  last_seen : Option Nat := none
  synced_at : Option Nat := none
deriving DecidableEq

/-- Central `collectors` liveness row. -/
structure CCollector where
  last_seen : Nat
  record_count : Nat
deriving DecidableEq

/-- State of the central Postgres store. The `nodes` table is keyed by
node_id, the `gateways` table by (host, port, collector_id). -/
structure CentralState where
  nodes : List (String × CNode) := []
  positions : List CPosition := []
  device_metrics : List CDeviceMetrics := []
  messages : List CMessage := []
  gateways : List ((String × Int × String) × CGateway) := []
  collectors : List (String × CCollector) := []
deriving DecidableEq

/-- Fresh central node row from the `_upsert_nodes` insert arm: all nine
wire fields plus the requesting collector; `synced_at` is not in the INSERT
column list and stays NULL. -/
def freshCNode (cid : String) (r : NodeRec) : CNode :=
  { node_num := r.node_num, long_name := r.long_name,
    short_name := r.short_name, hw_model := r.hw_model,
    firmware_version := r.firmware_version, mac_addr := r.mac_addr,
    first_seen := r.first_seen, last_seen := r.last_seen,
    collector_id := some cid, synced_at := none }

/-- ON CONFLICT (node_id) DO UPDATE arm of `_upsert_nodes`: six fields take
COALESCE(EXCLUDED.field, nodes.field), `last_seen` takes
GREATEST(nodes.last_seen, EXCLUDED.last_seen), `synced_at` = NOW();
`first_seen` and `collector_id` are not updated. -/
def mergeCNode (t : Nat) (r : NodeRec) (x : CNode) : CNode :=
  { x with
    node_num := coalesce r.node_num x.node_num,
    long_name := coalesce r.long_name x.long_name,
    short_name := coalesce r.short_name x.short_name,
    hw_model := coalesce r.hw_model x.hw_model,
    firmware_version := coalesce r.firmware_version x.firmware_version,
    mac_addr := coalesce r.mac_addr x.mac_addr,
    last_seen := greatestOpt x.last_seen r.last_seen,
    synced_at := some t }

/-- Bookkeeping-only effect on a central node row: set `synced_at`. -/
def stampCNode (t : Nat) (x : CNode) : CNode := { x with synced_at := some t }

/-- Target column list of the `_upsert_nodes` INSERT statement. -/
def nodesInsertColumns : List String :=
  ["node_id", "node_num", "long_name", "short_name", "hw_model",
   "firmware_version", "mac_addr", "first_seen", "last_seen", "collector_id"]

/-- Expressions per VALUES row in `_upsert_nodes`: the 10-tuple built for
each node, rendered by the default `execute_values` template. -/
def nodesValuesArity : Nat := 10

/-- `_upsert_nodes`: one bulk INSERT ... ON CONFLICT (node_id) DO UPDATE.
Postgres rejects the statement when a VALUES row arity mismatches the
target columns, or when two rows of one statement hit the same node_id
("ON CONFLICT DO UPDATE command cannot affect row a second time"). -/
def upsertNodesC (cid : String) (t : Nat) (recs : List NodeRec)
    (tbl : List (String × CNode)) : Except String (List (String × CNode)) :=
  if nodesValuesArity ≠ nodesInsertColumns.length then
    .error "INSERT has more target columns than expressions"
  else if ¬ (recs.map NodeRec.node_id).Nodup then
    .error "ON CONFLICT DO UPDATE command cannot affect row a second time"
  else
    .ok (applyRecs NodeRec.node_id (freshCNode cid) (mergeCNode t) recs tbl)

/-- Central position row built by the `_insert_positions` template
`(%s, %s, %s, %s, %s, %s, %s, NOW())`. -/
def mkCPosition (cid : String) (t : Nat) (p : PosRec) : CPosition :=
  { node_id := p.node_id, timestamp := p.timestamp, latitude := p.latitude,
    longitude := p.longitude, altitude := p.altitude,
    location_source := p.location_source, collector_id := cid,
    synced_at := t }

/-- Target column list of the `_insert_positions` INSERT statement. -/
def positionsInsertColumns : List String :=
  ["node_id", "timestamp", "latitude", "longitude", "altitude",
   "location_source", "collector_id", "synced_at"]

/-- Expressions per VALUES row in `_insert_positions`: seven placeholders
plus NOW() in the explicit template. -/
def positionsValuesArity : Nat := 8

/-- `_insert_positions`: INSERT ... ON CONFLICT DO NOTHING. The central
positions table carries only its serial surrogate primary key, which fresh
inserts never collide on, so every submitted row is appended (re-delivered
rows included). -/
def insertPositionsC (cid : String) (t : Nat) (recs : List PosRec)
    (tbl : List CPosition) : Except String (List CPosition) :=
  if positionsValuesArity ≠ positionsInsertColumns.length then
    .error "INSERT has more target columns than expressions"
  else .ok (tbl ++ recs.map (mkCPosition cid t))

/-- Central device_metrics row built by the `_insert_device_metrics`
template `(%s, %s, %s, %s, %s, %s, %s, %s, NOW())`. -/
def mkCDeviceMetrics (cid : String) (t : Nat) (m : MetricRec) :
    CDeviceMetrics :=
  { node_id := m.node_id, timestamp := m.timestamp,
    battery_level := m.battery_level, voltage := m.voltage,
    channel_utilization := m.channel_utilization,
    air_util_tx := m.air_util_tx, uptime_seconds := m.uptime_seconds,
    collector_id := cid, synced_at := t }

/-- Target column list of the `_insert_device_metrics` INSERT statement. -/
def metricsInsertColumns : List String :=
  ["node_id", "timestamp", "battery_level", "voltage",
   "channel_utilization", "air_util_tx", "uptime_seconds",
   "collector_id", "synced_at"]

/-- Expressions per VALUES row in `_insert_device_metrics`: eight
placeholders plus NOW() in the explicit template. -/
def metricsValuesArity : Nat := 9

/-- `_insert_device_metrics`: append-only like `_insert_positions`. -/
def insertDeviceMetricsC (cid : String) (t : Nat) (recs : List MetricRec)
    (tbl : List CDeviceMetrics) : Except String (List CDeviceMetrics) :=
  if metricsValuesArity ≠ metricsInsertColumns.length then
    .error "INSERT has more target columns than expressions"
  else .ok (tbl ++ recs.map (mkCDeviceMetrics cid t))

/-- Central message row built by the `_insert_messages` template
`(%s, %s, %s, %s, %s, %s, %s, NOW())`. -/
def mkCMessage (cid : String) (t : Nat) (m : MsgRec) : CMessage :=
  { timestamp := m.timestamp, from_node := m.from_node,
    to_node := m.to_node, channel := m.channel, text := m.text,
    port_num := m.port_num, collector_id := cid, synced_at := t }

/-- Target column list of the `_insert_messages` INSERT statement. -/
def messagesInsertColumns : List String :=
  ["timestamp", "from_node", "to_node", "channel", "text",
   "port_num", "collector_id", "synced_at"]

/-- Expressions per VALUES row in `_insert_messages`: seven placeholders
plus NOW() in the explicit template. -/
def messagesValuesArity : Nat := 7 + 1

/-- `_insert_messages`: append-only like `_insert_positions`. -/
def insertMessagesC (cid : String) (t : Nat) (recs : List MsgRec)
    (tbl : List CMessage) : Except String (List CMessage) :=
  if messagesValuesArity ≠ messagesInsertColumns.length then
    .error "INSERT has more target columns than expressions"
  else .ok (tbl ++ recs.map (mkCMessage cid t))

/-- Fresh central gateway row as the `_upsert_gateways` insert arm intends
it from the wire fields. -/
def freshCGateway (r : GatewayRec) : CGateway :=
  { node_id := r.node_id, first_seen := r.first_seen,
    last_seen := r.last_seen, synced_at := none }

/-- SET clause of `_upsert_gateways`' ON CONFLICT (host, port, collector_id)
DO UPDATE: node_id = COALESCE(EXCLUDED.node_id, gateways.node_id),
last_seen = GREATEST(gateways.last_seen, EXCLUDED.last_seen),
synced_at = NOW(). -/
def mergeCGateway (t : Nat) (r : GatewayRec) (x : CGateway) : CGateway :=
  { x with
    node_id := coalesce r.node_id x.node_id,
    last_seen := greatestOpt x.last_seen r.last_seen,
    synced_at := some t }

/-- Central identity of a submitted gateway row. -/
def gatewayKey (cid : String) (r : GatewayRec) : String × Int × String :=
  (r.host, r.port, cid)

/-- Target column list of the `_upsert_gateways` INSERT statement: seven
columns, `synced_at` included. -/
def gatewaysInsertColumns : List String :=
  ["host", "port", "node_id", "first_seen", "last_seen", "collector_id",
   "synced_at"]

/-- Expressions per VALUES row in `_upsert_gateways`: the 6-tuple built for
each gateway, rendered by the default `execute_values` template — no
explicit template supplies the seventh (`synced_at`) expression. -/
def gatewaysValuesArity : Nat := 6

/-- `_upsert_gateways`: the INSERT names seven target columns but each
VALUES row carries six expressions, so Postgres rejects the statement
whenever the gateway list is non-empty (the helper returns before executing
anything when the list is empty). -/
def upsertGatewaysC (cid : String) (t : Nat) (recs : List GatewayRec)
    (tbl : List ((String × Int × String) × CGateway)) :
    Except String (List ((String × Int × String) × CGateway)) :=
  if gatewaysValuesArity ≠ gatewaysInsertColumns.length then
    .error "INSERT has more target columns than expressions"
  else if ¬ (recs.map (gatewayKey cid)).Nodup then
    .error "ON CONFLICT DO UPDATE command cannot affect row a second time"
  else
    .ok (applyRecs (gatewayKey cid) freshCGateway (mergeCGateway t) recs tbl)

/-- `_update_collector`: upsert of the collectors liveness row — last_seen
refreshed to now, record_count starting at 1 and incremented per batch. -/
def updateCollector (cid : String) (t : Nat)
    (tbl : List (String × CCollector)) : List (String × CCollector) :=
  kupsert cid ⟨t, 1⟩ (fun c => ⟨t, c.record_count + 1⟩) tbl

/-- Step of the `/api/v1/sync` handler for `nodes`: skipped when the
submitted list is empty (falsy), otherwise the bulk upsert runs and
`records_received["nodes"]` records the submitted row count. -/
def stepNodes (cid : String) (t : Nat) (d : BatchData)
    (s : List (String × Nat) × CentralState) :
    Except String (List (String × Nat) × CentralState) :=
  if d.nodes = [] then .ok s
  else
    match upsertNodesC cid t d.nodes s.2.nodes with
    | .error e => .error e
    | .ok tbl =>
      .ok (s.1 ++ [("nodes", d.nodes.length)], { s.2 with nodes := tbl })

/-- Step of the handler for `positions`. -/
def stepPositions (cid : String) (t : Nat) (d : BatchData)
    (s : List (String × Nat) × CentralState) :
    Except String (List (String × Nat) × CentralState) :=
  if d.positions = [] then .ok s
  else
    match insertPositionsC cid t d.positions s.2.positions with
    | .error e => .error e
    | .ok tbl =>
      .ok (s.1 ++ [("positions", d.positions.length)],
        { s.2 with positions := tbl })

/-- Step of the handler for `device_metrics`. -/
def stepMetrics (cid : String) (t : Nat) (d : BatchData)
    (s : List (String × Nat) × CentralState) :
    Except String (List (String × Nat) × CentralState) :=
  if d.device_metrics = [] then .ok s
  else
    match insertDeviceMetricsC cid t d.device_metrics s.2.device_metrics with
    | .error e => .error e
    | .ok tbl =>
      .ok (s.1 ++ [("device_metrics", d.device_metrics.length)],
        { s.2 with device_metrics := tbl })

/-- Step of the handler for `messages`. -/
def stepMessages (cid : String) (t : Nat) (d : BatchData)
    (s : List (String × Nat) × CentralState) :
    Except String (List (String × Nat) × CentralState) :=
  if d.messages = [] then .ok s
  else
    match insertMessagesC cid t d.messages s.2.messages with
    | .error e => .error e
    | .ok tbl =>
      .ok (s.1 ++ [("messages", d.messages.length)],
        { s.2 with messages := tbl })

/-- Step of the handler for `gateways`. -/
def stepGateways (cid : String) (t : Nat) (d : BatchData)
    (s : List (String × Nat) × CentralState) :
    Except String (List (String × Nat) × CentralState) :=
  if d.gateways = [] then .ok s
  else
    match upsertGatewaysC cid t d.gateways s.2.gateways with
    | .error e => .error e
    | .ok tbl =>
      .ok (s.1 ++ [("gateways", d.gateways.length)],
        { s.2 with gateways := tbl })

/-- Body of the authenticated `/api/v1/sync` handler after validation:
process the five tables in code order inside one transaction, then bump the
collectors liveness row; the transaction commits and the handler answers
200 with the records_received mapping, while any exception rolls the whole
batch back (no commit) and is answered with status 500. -/
def processData (cid : String) (t : Nat) (d : BatchData)
    (st : CentralState) : Nat × List (String × Nat) × CentralState :=
  match
    (stepNodes cid t d ([], st)).bind (fun s1 =>
      (stepPositions cid t d s1).bind (fun s2 =>
        (stepMetrics cid t d s2).bind (fun s3 =>
          (stepMessages cid t d s3).bind (fun s4 =>
            (stepGateways cid t d s4).map (fun s5 =>
              (s5.1, { s5.2 with
                collectors := updateCollector cid t s5.2.collectors }))))))
  with
  | .ok (rr, st2) => (200, rr, st2)
  | .error _ => (500, [], st)

/-- Parsed request body as the handler sees it: `badJson` when
`request.get_json()` raises (unparseable body or unsupported media type —
Flask 3 raises 400/415 HTTPExceptions, which the handler's blanket
`except Exception` turns into a 500 answer), `emptyJson` when the body
parses to a falsy value (null, empty object), otherwise the payload. -/
inductive ReqBody where
  | badJson
  | emptyJson
  | payload (collector_id : Option String) (batch_id : Option String)
      (data : BatchData)
deriving DecidableEq

/-- Python truthiness of the optional `collector_id` string: absent keys
and the empty string are falsy. -/
def truthyStr : Option String → Bool
  | none => false
  | some s => s ≠ ""

/-- Python `str.startswith`: code-point-wise prefix test. -/
def strStartsWith (s pre : String) : Bool := pre.data.isPrefixOf s.data

/-- Python slicing `s[n:]`: drop the first n code points. -/
def strDrop (s : String) (n : Nat) : String := String.mk (s.data.drop n)

/-- Full `/api/v1/sync` request pipeline: the `require_api_key` decorator
answers 401 when the Authorization header does not start with "Bearer " or
the token after the prefix is not in the configured key set; the handler
then answers 500 for a body whose JSON parsing raised, 400 for a falsy
payload or falsy collector_id, and otherwise runs the merge. No store
write survives any non-200 answer. -/
def syncEndpoint (apiKeys : List String) (authHeader : Option String)
    (body : ReqBody) (st : CentralState) (t : Nat) :
    Nat × List (String × Nat) × CentralState :=
  let hdr := authHeader.getD ""
  if ¬ strStartsWith hdr "Bearer " then (401, [], st)
  else if (strDrop hdr 7) ∉ apiKeys then (401, [], st)
  else
    match body with
    | .badJson => (500, [], st)
    | .emptyJson => (400, [], st)
    | .payload collector_id _ data =>
      if truthyStr collector_id = false then (400, [], st)
      else processData (collector_id.getD "") t data st

/-
Normal forms of the handler on the paths the claims reason about.
-/

/-- Re-merging the same node record is pure `synced_at` bookkeeping. -/
theorem mergeCNode_remerge (t1 t2 : Nat) (r : NodeRec) (x : CNode) :
    mergeCNode t2 r (mergeCNode t1 r x) = stampCNode t2 (mergeCNode t1 r x) := by
  cases x
  simp [mergeCNode, stampCNode, coalesce_left_absorb, greatestOpt_right_absorb]

/-- Merging a node record over the row it freshly inserted is pure
`synced_at` bookkeeping. -/
theorem mergeCNode_fresh (t : Nat) (cid : String) (r : NodeRec) :
    mergeCNode t r (freshCNode cid r) = stampCNode t (freshCNode cid r) := by
  simp [mergeCNode, stampCNode, freshCNode, coalesce_self, greatestOpt_self]

/-- The records_received mapping answered for a gateway-free batch: one key
per non-empty submitted table, valued by the submitted row count. -/
def rrOf (d : BatchData) : List (String × Nat) :=
  (if d.nodes = [] then [] else [("nodes", d.nodes.length)])
    ++ (if d.positions = [] then [] else [("positions", d.positions.length)])
    ++ (if d.device_metrics = [] then []
        else [("device_metrics", d.device_metrics.length)])
    ++ (if d.messages = [] then [] else [("messages", d.messages.length)])

/-- Store contents after one successful gateway-free merge. -/
def applyData (cid : String) (t : Nat) (d : BatchData)
    (st : CentralState) : CentralState :=
  { nodes := applyRecs NodeRec.node_id (freshCNode cid) (mergeCNode t)
      d.nodes st.nodes,
    positions := st.positions ++ d.positions.map (mkCPosition cid t),
    device_metrics :=
      st.device_metrics ++ d.device_metrics.map (mkCDeviceMetrics cid t),
    messages := st.messages ++ d.messages.map (mkCMessage cid t),
    gateways := st.gateways,
    collectors := updateCollector cid t st.collectors }

theorem stepNodes_ok (cid : String) (t : Nat) (d : BatchData)
    (rr : List (String × Nat)) (st : CentralState)
    (hn : (d.nodes.map NodeRec.node_id).Nodup) :
    stepNodes cid t d (rr, st)
      = .ok (rr ++ (if d.nodes = [] then [] else [("nodes", d.nodes.length)]),
          { st with
            nodes := applyRecs NodeRec.node_id (freshCNode cid)
              (mergeCNode t) d.nodes st.nodes }) := by
  by_cases h : d.nodes = []
  · simp [stepNodes, h, applyRecs]
  · simp [stepNodes, h, upsertNodesC, hn, nodesValuesArity,
      nodesInsertColumns]

theorem stepPositions_ok (cid : String) (t : Nat) (d : BatchData)
    (rr : List (String × Nat)) (st : CentralState) :
    stepPositions cid t d (rr, st)
      = .ok (rr ++ (if d.positions = [] then []
              else [("positions", d.positions.length)]),
          { st with positions :=
              st.positions ++ d.positions.map (mkCPosition cid t) }) := by
  by_cases h : d.positions = []
  · simp [stepPositions, h]
  · simp [stepPositions, h, insertPositionsC, positionsValuesArity,
      positionsInsertColumns]

theorem stepMetrics_ok (cid : String) (t : Nat) (d : BatchData)
    (rr : List (String × Nat)) (st : CentralState) :
    stepMetrics cid t d (rr, st)
      = .ok (rr ++ (if d.device_metrics = [] then []
              else [("device_metrics", d.device_metrics.length)]),
          { st with device_metrics := st.device_metrics
              ++ d.device_metrics.map (mkCDeviceMetrics cid t) }) := by
  by_cases h : d.device_metrics = []
  · simp [stepMetrics, h]
  · simp [stepMetrics, h, insertDeviceMetricsC, metricsValuesArity,
      metricsInsertColumns]

theorem stepMessages_ok (cid : String) (t : Nat) (d : BatchData)
    (rr : List (String × Nat)) (st : CentralState) :
    stepMessages cid t d (rr, st)
      = .ok (rr ++ (if d.messages = [] then []
              else [("messages", d.messages.length)]),
          { st with messages :=
              st.messages ++ d.messages.map (mkCMessage cid t) }) := by
  by_cases h : d.messages = []
  · simp [stepMessages, h]
  · simp [stepMessages, h, insertMessagesC, messagesValuesArity,
      messagesInsertColumns]

theorem stepGateways_empty (cid : String) (t : Nat) (d : BatchData)
    (s : List (String × Nat) × CentralState) (hg : d.gateways = []) :
    stepGateways cid t d s = .ok s := by
  simp [stepGateways, hg]

/-- Any non-empty gateways list makes its bulk INSERT fail: seven target
columns, six value expressions. -/
theorem stepGateways_error (cid : String) (t : Nat) (d : BatchData)
    (s : List (String × Nat) × CentralState) (hg : d.gateways ≠ []) :
    stepGateways cid t d s
      = .error "INSERT has more target columns than expressions" := by
  simp [stepGateways, hg, upsertGatewaysC, gatewaysValuesArity,
    gatewaysInsertColumns]

/-- Normal form of the handler body on a gateway-free batch with pairwise
distinct node ids: status 200, the records_received of `rrOf`, and the
merged stores of `applyData`. -/
theorem processData_ok (cid : String) (t : Nat) (d : BatchData)
    (st : CentralState) (hn : (d.nodes.map NodeRec.node_id).Nodup)
    (hg : d.gateways = []) :
    processData cid t d st = (200, rrOf d, applyData cid t d st) := by
  simp only [processData, stepNodes_ok cid t d [] st hn, Except.bind,
    Except.map, stepPositions_ok, stepMetrics_ok, stepMessages_ok,
    stepGateways_empty cid t d, hg]
  simp [rrOf, applyData, List.append_assoc]

/-- Normal form of the handler body on a batch containing gateway rows:
the transaction fails, nothing commits, the answer is a 500 error. -/
theorem processData_gateways_error (cid : String) (t : Nat) (d : BatchData)
    (st : CentralState) (hn : (d.nodes.map NodeRec.node_id).Nodup)
    (hg : d.gateways ≠ []) :
    processData cid t d st = (500, [], st) := by
  simp only [processData, stepNodes_ok cid t d [] st hn, Except.bind,
    Except.map, stepPositions_ok, stepMetrics_ok, stepMessages_ok,
    stepGateways_error cid t d, hg, ne_eq, not_false_eq_true]

/-
Claim theorems.
-/

theorem foldl_backoff_replicate (N : Nat) : ∀ b : Nat, b ≤ 300 →
    (List.replicate N false).foldl backoffStep b = min (b * 2 ^ N) 300 := by
  induction N with
  | zero =>
    intro b hb
    simp [Nat.min_eq_left hb]
  | succ n ih =>
    intro b hb
    rw [List.replicate_succ, List.foldl_cons,
      show backoffStep b false = min (b * 2) 300 from rfl,
      ih (min (b * 2) 300) (Nat.min_le_right _ _)]
    rcases Nat.le_total (b * 2) 300 with h | h
    · rw [Nat.min_eq_left h, show b * 2 * 2 ^ n = b * 2 ^ (n + 1) by ring]
    · rw [Nat.min_eq_right h]
      have hx : 0 < 2 ^ n := Nat.two_pow_pos n
      have h1 : (300 : Nat) ≤ 300 * 2 ^ n := Nat.le_mul_of_pos_right 300 hx
      have h2 : (300 : Nat) ≤ b * 2 ^ (n + 1) := by
        calc (300 : Nat) ≤ b * 2 := h
          _ ≤ b * 2 * 2 ^ n := Nat.le_mul_of_pos_right (b * 2) hx
          _ = b * 2 ^ (n + 1) := by ring
      rw [Nat.min_eq_right h1, Nat.min_eq_right h2]

/-- Backoff value after N consecutive failed cycles from the fresh loop. -/
theorem runBackoff_failures (N : Nat) :
    runBackoff (List.replicate N false) = min (2 ^ N) 300 := by
  have h := foldl_backoff_replicate N 1 (by norm_num)
  simpa [runBackoff] using h

/-- C7 counterexample: with the minimum valid configured interval of 10
seconds, one failed cycle is followed by a wait of max(10, 2) = 10 time
units, not the claimed min(2^1, 300) = 2 — the loop waits
`max(sync_interval, backoff)`, not the bare backoff. -/
theorem claim7_counterexample :
    ¬ (waitTimeout 10 (runBackoff (List.replicate 1 false))
        = min (2 ^ 1) 300) := by
  decide

/-- C7 (amended): after N consecutive failed cycles the loop's backoff
variable equals min(2^N, 300) and the wait before the next retry equals
max(configured sync_interval, min(2^N, 300)); the first subsequent
successful cycle resets the backoff to 1. -/
theorem claim7_amended (N sync_interval : Nat) (outs : List Bool) :
    runBackoff (List.replicate N false) = min (2 ^ N) 300 ∧
    waitTimeout sync_interval (runBackoff (List.replicate N false))
      = max sync_interval (min (2 ^ N) 300) ∧
    runBackoff (List.replicate N false ++ [true]) = 1 ∧
    backoffStep (runBackoff outs) true = 1 := by
  refine ⟨runBackoff_failures N, ?_, ?_, rfl⟩
  · rw [waitTimeout, runBackoff_failures N]
  · rw [runBackoff, List.foldl_append]
    rfl

/-- C8: with sync configured and zero unsynced rows in every table,
`sync_once` returns an ok result with records_synced = 0, never invokes the
HTTP transport, never invokes `mark_synced`, and leaves the store
untouched. -/
theorem claim8_no_records_no_network (db : LocalDB) (http : HttpResult)
    (now : Nat) (h : get_unsynced_count db = ⟨0, 0, 0, 0, 0⟩) :
    sync_once true db http now = ⟨.ok 0, db, false, false⟩ := by
  have h1 : (db.nodes.filter (fun e => e.2.synced_at.isNone)).length = 0 := by
    have := congrArg UnsyncedCount.nodes h
    simpa [get_unsynced_count] using this
  have h2 : (db.positions.filter (fun r => r.synced_at.isNone)).length = 0 := by
    have := congrArg UnsyncedCount.positions h
    simpa [get_unsynced_count] using this
  have h3 : (db.device_metrics.filter
      (fun r => r.synced_at.isNone)).length = 0 := by
    have := congrArg UnsyncedCount.device_metrics h
    simpa [get_unsynced_count] using this
  have h4 : (db.messages.filter (fun r => r.synced_at.isNone)).length = 0 := by
    have := congrArg UnsyncedCount.messages h
    simpa [get_unsynced_count] using this
  have h5 : (db.gateways.filter (fun r => r.synced_at.isNone)).length = 0 := by
    have := congrArg UnsyncedCount.gateways h
    simpa [get_unsynced_count] using this
  unfold sync_once
  simp [get_unsynced_records, unsyncedTotal,
    List.eq_nil_of_length_eq_zero h1, List.eq_nil_of_length_eq_zero h2,
    List.eq_nil_of_length_eq_zero h3, List.eq_nil_of_length_eq_zero h4,
    List.eq_nil_of_length_eq_zero h5]

/-- Sample store for C8: one node row, already synced. -/
def c8db : LocalDB :=
  { nodes := [("!aa11", { long_name := some "Alpha", synced_at := some 3 })] }

theorem claim8_witness :
    get_unsynced_count c8db = ⟨0, 0, 0, 0, 0⟩ ∧
    sync_once true c8db .transportError 9 = ⟨.ok 0, c8db, false, false⟩ :=
  ⟨by decide, claim8_no_records_no_network c8db .transportError 9 (by decide)⟩

/-- C2 (amended): a transport failure or a response with status ≥ 400 makes
`sync_once` raise a SyncError (whenever there was a batch to send) and
leave every row's `synced_at` untouched — `mark_synced` is not invoked;
conversely `mark_synced` is invoked only after a response whose status is
below 400 (`requests.Response.ok`), which is weaker than "2xx only". -/
theorem claim2_amended :
    (∀ (db : LocalDB) (http : HttpResult) (now : Nat),
        (http = .transportError ∨ ∃ s, http = .response s ∧ 400 ≤ s) →
          (sync_once true db http now).db = db ∧
          (sync_once true db http now).markSyncedCalled = false ∧
          (unsyncedTotal (get_unsynced_records db 1000) ≠ 0 →
            (sync_once true db http now).outcome = .syncError)) ∧
    (∀ (db : LocalDB) (http : HttpResult) (now : Nat),
        (sync_once true db http now).markSyncedCalled = true →
          ∃ s, http = .response s ∧ s < 400) := by
  constructor
  · intro db http now hfail
    unfold sync_once
    by_cases h0 : unsyncedTotal (get_unsynced_records db 1000) = 0
    · simp [h0]
    · rcases hfail with rfl | ⟨s, rfl, hs⟩
      · simp [h0]
      · have hok : respOk s = false := by
          simp only [respOk, decide_eq_false_iff_not]
          omega
        simp [h0, hok]
  · intro db http now hmark
    unfold sync_once at hmark
    by_cases h0 : unsyncedTotal (get_unsynced_records db 1000) = 0
    · simp [h0] at hmark
    · cases http with
      | transportError => simp [h0] at hmark
      | response s =>
        by_cases hok : respOk s = true
        · exact ⟨s, rfl, by simpa [respOk] using hok⟩
        · simp [h0, hok] at hmark

/-- Sample store for C2: one unsynced node row. -/
def c2db : LocalDB :=
  { nodes := [("!aa11",
      { long_name := some "Alpha", last_seen := some 1,
        collector_id := some "pi", synced_at := none })],
    collector_id := some "pi" }

/-- C2 counterexample: a 302 response is non-2xx, yet `response.ok` is true
for every status below 400, so `sync_once` does not raise — it reports
success and marks the batch synced, mutating `synced_at`. -/
theorem claim2_counterexample :
    (sync_once true c2db (.response 302) 9).outcome = .ok 1 ∧
    (sync_once true c2db (.response 302) 9).markSyncedCalled = true ∧
    (sync_once true c2db (.response 302) 9).db ≠ c2db ∧
    ¬ (200 ≤ 302 ∧ 302 < 300) := by
  decide

theorem claim2_witness :
    ((.transportError : HttpResult) = .transportError ∨
      ∃ s, (.transportError : HttpResult) = .response s ∧ 400 ≤ s) ∧
    unsyncedTotal (get_unsynced_records c2db 1000) ≠ 0 ∧
    (sync_once true c2db .transportError 9).db = c2db ∧
    (sync_once true c2db .transportError 9).outcome = .syncError :=
  ⟨Or.inl rfl, by decide,
    (claim2_amended.1 c2db .transportError 9 (Or.inl rfl)).1,
    (claim2_amended.1 c2db .transportError 9 (Or.inl rfl)).2.2 (by decide)⟩

/-- C9 (amended): a missing Bearer prefix or an unknown token is answered
401; with a valid token, a falsy parsed payload or a falsy collector_id is
answered 400; a body whose JSON parsing raised is answered 500 (the raised
BadRequest lands in the handler's blanket `except`), not 400. On every one
of these paths the store is returned unchanged and no records_received is
produced. -/
theorem claim9_amended :
    (∀ (keys : List String) (hdr : Option String) (body : ReqBody)
        (st : CentralState) (t : Nat),
        (¬ strStartsWith (hdr.getD "") "Bearer " ∨
          (strDrop (hdr.getD "") 7) ∉ keys) →
          syncEndpoint keys hdr body st t = (401, [], st)) ∧
    (∀ (keys : List String) (hdr : Option String) (cidv bid : Option String)
        (d : BatchData) (st : CentralState) (t : Nat),
        strStartsWith (hdr.getD "") "Bearer " → (strDrop (hdr.getD "") 7) ∈ keys →
          truthyStr cidv = false →
          syncEndpoint keys hdr (.payload cidv bid d) st t = (400, [], st)) ∧
    (∀ (keys : List String) (hdr : Option String) (st : CentralState)
        (t : Nat),
        strStartsWith (hdr.getD "") "Bearer " → (strDrop (hdr.getD "") 7) ∈ keys →
          syncEndpoint keys hdr .emptyJson st t = (400, [], st)) ∧
    (∀ (keys : List String) (hdr : Option String) (st : CentralState)
        (t : Nat),
        strStartsWith (hdr.getD "") "Bearer " → (strDrop (hdr.getD "") 7) ∈ keys →
          syncEndpoint keys hdr .badJson st t = (500, [], st)) := by
  refine ⟨?_, ?_, ?_, ?_⟩
  · intro keys hdr body st t hbad
    unfold syncEndpoint
    rcases hbad with h | h
    · simp [h]
    · by_cases h1 : strStartsWith (hdr.getD "") "Bearer "
      · simp [h1, h]
      · simp [h1]
  · intro keys hdr cidv bid d st t h1 h2 h3
    simp [syncEndpoint, h1, h2, h3]
  · intro keys hdr st t h1 h2
    simp [syncEndpoint, h1, h2]
  · intro keys hdr st t h1 h2
    simp [syncEndpoint, h1, h2]

/-- C9 counterexample: with a valid token, an unparseable JSON body is
answered 500, not the claimed 400. -/
theorem claim9_counterexample :
    (syncEndpoint ["k1"] (some "Bearer k1") .badJson {} 3).1 = 500 ∧
    (syncEndpoint ["k1"] (some "Bearer k1") .badJson {} 3).1 ≠ 400 := by
  decide

theorem claim9_witness :
    (¬ strStartsWith (((none : Option String)).getD "") "Bearer " ∨
      (strDrop (((none : Option String)).getD "") 7) ∉ ["k1"]) ∧
    syncEndpoint ["k1"] none .badJson {} 3 = (401, [], ({} : CentralState)) :=
  ⟨Or.inl (by decide),
    claim9_amended.1 ["k1"] none .badJson {} 3 (Or.inl (by decide))⟩

theorem mem_if_singleton {c : Prop} [Decidable c] (s name : String)
    (n k : Nat) :
    ((name, k) ∈ (if c then ([] : List (String × Nat)) else [(s, n)]))
      ↔ (¬c ∧ name = s ∧ k = n) := by
  split_ifs with h
  · simp [h]
  · simp [h, Prod.ext_iff]

/-- C10 (amended): for a gateway-free batch with pairwise distinct node
ids, the 200 answer's records_received has exactly one key per non-empty
submitted table among nodes/positions/device_metrics/messages, each valued
by the SUBMITTED row count; the mapping is independent of the store's prior
contents, and the store grows by every submitted position row even when
identical rows were already merged (re-delivered rows are still counted and
re-appended). Batches with a non-empty gateways array are answered 500 with
no records_received at all. -/
theorem claim10_amended (cid : String) (d : BatchData) (st : CentralState)
    (t : Nat) (hn : (d.nodes.map NodeRec.node_id).Nodup)
    (hg : d.gateways = []) :
    (∀ st2 : CentralState,
        (processData cid t d st2).2.1 = (processData cid t d st).2.1) ∧
    (∀ (name : String) (k : Nat),
        (name, k) ∈ (processData cid t d st).2.1 ↔
          ((d.nodes ≠ [] ∧ name = "nodes" ∧ k = d.nodes.length) ∨
           (d.positions ≠ [] ∧ name = "positions" ∧
             k = d.positions.length) ∨
           (d.device_metrics ≠ [] ∧ name = "device_metrics" ∧
             k = d.device_metrics.length) ∨
           (d.messages ≠ [] ∧ name = "messages" ∧
             k = d.messages.length))) ∧
    (processData cid t d st).2.2.positions.length
      = st.positions.length + d.positions.length := by
  refine ⟨?_, ?_, ?_⟩
  · intro st2
    rw [processData_ok cid t d st2 hn hg, processData_ok cid t d st hn hg]
  · intro name k
    rw [processData_ok cid t d st hn hg]
    simp only [rrOf, List.mem_append, mem_if_singleton, ne_eq]
    tauto
  · rw [processData_ok cid t d st hn hg]
    simp [applyData]

/-- Sample batch for the C10 counterexample: a single gateway row. -/
def c10batch : BatchData := { gateways := [{ host := "gw.local", port := 4403 }] }

/-- C10 counterexample: an authenticated request with a collector_id whose
batch holds one gateway row is answered 500 and its answer carries no
records_received mapping at all — in particular no ("gateways", 1) entry,
although the gateways array was non-empty with one row. -/
theorem claim10_counterexample :
    (syncEndpoint ["k1"] (some "Bearer k1")
        (.payload (some "pi") none c10batch) {} 7).1 = 500 ∧
    ("gateways", 1) ∉ (syncEndpoint ["k1"] (some "Bearer k1")
        (.payload (some "pi") none c10batch) {} 7).2.1 := by
  decide

/-- Sample batch for the C10 witness: a single position row. -/
def c10wbatch : BatchData :=
  { positions := [{ node_id := "!aa11", timestamp := 4 }] }

theorem claim10_witness :
    ((c10wbatch.nodes.map NodeRec.node_id).Nodup) ∧
    c10wbatch.gateways = [] ∧
    (processData "pi" 7 c10wbatch {}).2.2.positions.length
      = ({} : CentralState).positions.length + c10wbatch.positions.length :=
  ⟨by decide, rfl, (claim10_amended "pi" c10wbatch {} 7 (by decide) rfl).2.2⟩

/-- Sample batch for C1: one node row and one position row. -/
def c1batch : BatchData :=
  { nodes := [{ node_id := "!aa11", long_name := some "Alpha" }],
    positions := [{ node_id := "!aa11", timestamp := 5 }] }

/-- C1 counterexample: submitting the same batch twice does create a
duplicate position row — the second submission's row count differs from
the first's, because the positions INSERT's do-nothing-on-conflict has
only the serial primary key to conflict on. -/
theorem claim1_counterexample :
    (processData "pi" 2 c1batch
        (processData "pi" 1 c1batch {}).2.2).2.2.positions.length
      ≠ (processData "pi" 1 c1batch {}).2.2.positions.length := by
  decide

/-- C1 (amended): replaying a gateway-free batch with distinct node ids is
idempotent for the nodes table only up to bookkeeping — the second call
answers 200, re-stamps `synced_at` on exactly the submitted node rows and
changes no other node field, count or key — while the positions,
device_metrics and messages tables each gain a fresh duplicate of every
submitted row; the gateways table is untouched. A batch containing any
gateway row is instead answered 500 with nothing written (by either call). -/
theorem claim1_amended (st : CentralState) (cid : String) (d : BatchData)
    (t1 t2 : Nat) (hn : (d.nodes.map NodeRec.node_id).Nodup) :
    (d.gateways = [] →
      (processData cid t1 d st).1 = 200 ∧
      (processData cid t2 d (processData cid t1 d st).2.2).1 = 200 ∧
      (processData cid t2 d (processData cid t1 d st).2.2).2.2.nodes
        = stampIf (d.nodes.map NodeRec.node_id) (stampCNode t2)
            (processData cid t1 d st).2.2.nodes ∧
      (processData cid t2 d (processData cid t1 d st).2.2).2.2.nodes.length
        = (processData cid t1 d st).2.2.nodes.length ∧
      (processData cid t2 d (processData cid t1 d st).2.2).2.2.positions
        = (processData cid t1 d st).2.2.positions
            ++ d.positions.map (mkCPosition cid t2) ∧
      (processData cid t2 d (processData cid t1 d st).2.2).2.2.device_metrics
        = (processData cid t1 d st).2.2.device_metrics
            ++ d.device_metrics.map (mkCDeviceMetrics cid t2) ∧
      (processData cid t2 d (processData cid t1 d st).2.2).2.2.messages
        = (processData cid t1 d st).2.2.messages
            ++ d.messages.map (mkCMessage cid t2) ∧
      (processData cid t2 d (processData cid t1 d st).2.2).2.2.gateways
        = (processData cid t1 d st).2.2.gateways) ∧
    (d.gateways ≠ [] → processData cid t1 d st = (500, [], st)) := by
  constructor
  · intro hg
    rw [processData_ok cid t1 d st hn hg]
    rw [show ((200, rrOf d, applyData cid t1 d st) :
        Nat × List (String × Nat) × CentralState).2.2
      = applyData cid t1 d st from rfl]
    rw [processData_ok cid t2 d (applyData cid t1 d st) hn hg]
    have hidem := applyRecs_idem NodeRec.node_id (freshCNode cid)
      (mergeCNode t1) (mergeCNode t2) (stampCNode t2) d.nodes st.nodes
      (fun a x => mergeCNode_remerge t1 t2 a x)
      (fun a => mergeCNode_fresh t2 cid a) hn
    refine ⟨rfl, rfl, ?_, ?_, rfl, rfl, rfl, rfl⟩
    · simpa [applyData] using hidem
    · simp only [applyData]
      rw [hidem, stampIf_length]
  · intro hg
    exact processData_gateways_error cid t1 d st hn hg

theorem claim1_witness :
    ((c1batch.nodes.map NodeRec.node_id).Nodup) ∧ c1batch.gateways = [] ∧
    (processData "pi" 2 c1batch (processData "pi" 1 c1batch {}).2.2).2.2.nodes
      = stampIf (c1batch.nodes.map NodeRec.node_id) (stampCNode 2)
          (processData "pi" 1 c1batch {}).2.2.nodes :=
  ⟨by decide, rfl,
    ((claim1_amended {} "pi" c1batch 1 2 (by decide)).1 rfl).2.2.1⟩

/-- Stored central gateway row for C5. -/
def c5row : CGateway :=
  { node_id := some "!aa11", first_seen := some 1, last_seen := some 10,
    synced_at := some 3 }

/-- Central store for C5: one gateway keyed (gw.local, 4403, pi). -/
def c5st : CentralState := { gateways := [(("gw.local", 4403, "pi"), c5row)] }

/-- Incoming gateway record for C5: same key, older last_seen, different
non-null node_id. -/
def c5rec : GatewayRec :=
  { host := "gw.local", port := 4403, node_id := some "!bb22",
    first_seen := some 2, last_seen := some 5 }

/-- Batch for C5 carrying the single gateway record. -/
def c5batch : BatchData := { gateways := [c5rec] }

/-- C5 evaluated at the failing input: the gateway upsert statement itself
fails (seven target columns, six value expressions), so the whole request
is answered 500 and rolled back — no merge ever runs. Additionally, the SET
clause written in the SQL (modelled by `mergeCGateway`), had it executed,
keeps last_seen at the stored maximum but OVERWRITES the stored non-null
node_id with the incoming non-null one — coalesce in the incoming-wins
direction, not "replaced only when previously null". -/
theorem claim5_gateway_merge_bug :
    processData "pi" 7 c5batch c5st = (500, [], c5st) ∧
    upsertGatewaysC "pi" 7 c5batch.gateways c5st.gateways
      = .error "INSERT has more target columns than expressions" ∧
    mergeCGateway 7 c5rec c5row
      = { node_id := some "!bb22", first_seen := some 1,
          last_seen := some 10, synced_at := some 7 } ∧
    c5row.node_id ≠ none ∧
    (mergeCGateway 7 c5rec c5row).node_id ≠ c5row.node_id := by
  refine ⟨processData_gateways_error "pi" 7 c5batch c5st (by decide)
    (by decide), rfl, by decide, by decide, by decide⟩

/-- A node looked up unsynced within the first 1000 rows appears in the
unsynced-nodes page. -/
theorem mem_unsynced_take (tbl : List (String × LNode)) (nid : String)
    (v : LNode) (hv : lookupKey nid tbl = some v)
    (hnone : v.synced_at = none) (hl : tbl.length ≤ 1000) :
    nid ∈ (((tbl.filter (fun e => e.2.synced_at.isNone)).take 1000).map
      Prod.fst) := by
  have hmem : (nid, v) ∈ tbl := lookupKey_some_mem nid tbl v hv
  have hfil : (nid, v) ∈ tbl.filter (fun e => e.2.synced_at.isNone) :=
    List.mem_filter.2 ⟨hmem, by simp [hnone]⟩
  have hlen : (tbl.filter (fun e => e.2.synced_at.isNone)).length ≤ 1000 :=
    le_trans (List.length_filter_le _ _) hl
  rw [List.take_of_length_le hlen]
  exact List.mem_map_of_mem Prod.fst hfil

/-- A node all of whose rows are synced does not appear in the
unsynced-nodes page. -/
theorem not_mem_unsynced (tbl : List (String × LNode)) (nid : String)
    (hall : ∀ e, e ∈ tbl → e.1 = nid → e.2.synced_at ≠ none) :
    nid ∉ (((tbl.filter (fun e => e.2.synced_at.isNone)).take 1000).map
      Prod.fst) := by
  intro hmem
  rcases List.mem_map.1 hmem with ⟨e, he, hfst⟩
  have he2 : e ∈ tbl.filter (fun e => e.2.synced_at.isNone) :=
    List.take_subset _ _ he
  rcases List.mem_filter.1 he2 with ⟨hetbl, hpred⟩
  exact hall e hetbl hfst (Option.isNone_iff_eq_none.1 hpred)

/-- C3: after `upsert_node` the node id appears among the unsynced node
records; after `mark_synced` on that id it no longer appears; a subsequent
`upsert_node` on the same id makes it reappear, since the upsert's conflict
arm resets `synced_at` to NULL. The row-count hypothesis keeps the touched
row inside `get_unsynced_records`' 1000-row page. -/
theorem claim3_unsynced_tracking (db : LocalDB) (nid : String)
    (p1 p2 : NodeParams) (t1 t2 t3 : Nat)
    (hlen : db.nodes.length < 1000) :
    nid ∈ ((get_unsynced_records (upsert_node db nid p1 t1) 1000).nodes.map
      Prod.fst) ∧
    nid ∉ ((get_unsynced_records (mark_synced (upsert_node db nid p1 t1)
      { nodes := [nid] } t2) 1000).nodes.map Prod.fst) ∧
    nid ∈ ((get_unsynced_records (upsert_node (mark_synced
      (upsert_node db nid p1 t1) { nodes := [nid] } t2) nid p2 t3)
      1000).nodes.map Prod.fst) := by
  set db1 := upsert_node db nid p1 t1 with hdb1
  set db2 := mark_synced db1 { nodes := [nid] } t2 with hdb2
  set db3 := upsert_node db2 nid p2 t3 with hdb3
  have h1nodes : db1.nodes = kupsert nid (freshLNode db.collector_id p1 t1)
      (mergeLNode p1 t1) db.nodes := rfl
  obtain ⟨v1, hv1, hv1none⟩ :
      ∃ v, lookupKey nid db1.nodes = some v ∧ v.synced_at = none := by
    rw [h1nodes, lookupKey_kupsert_self]
    cases lookupKey nid db.nodes with
    | some v => exact ⟨_, rfl, rfl⟩
    | none => exact ⟨_, rfl, rfl⟩
  have hlen1 : db1.nodes.length ≤ 1000 := by
    rw [h1nodes]
    have := kupsert_length_le nid (freshLNode db.collector_id p1 t1)
      (mergeLNode p1 t1) db.nodes
    omega
  have h2nodes : db2.nodes = updAt nid
      (fun r => { r with synced_at := some t2 }) db1.nodes := by
    simp [hdb2, mark_synced, updAt, List.mem_singleton]
  refine ⟨?_, ?_, ?_⟩
  · simpa [get_unsynced_records] using
      mem_unsynced_take db1.nodes nid v1 hv1 hv1none hlen1
  · apply not_mem_unsynced
    have hEnt : EntriesAt nid (fun r => r.synced_at = some t2) db2.nodes := by
      rw [h2nodes]
      exact entriesAt_updAt_self nid _ _ db1.nodes (fun x => rfl)
    intro e he hek
    rw [hEnt e he hek]
    simp
  · have hlook2 : lookupKey nid db2.nodes
        = some { v1 with synced_at := some t2 } := by
      rw [h2nodes, lookupKey_updAt_self, hv1]
      rfl
    have h3nodes : db3.nodes = kupsert nid
        (freshLNode db2.collector_id p2 t3) (mergeLNode p2 t3) db2.nodes :=
      rfl
    have hlook3 : lookupKey nid db3.nodes
        = some (mergeLNode p2 t3 { v1 with synced_at := some t2 }) := by
      rw [h3nodes, lookupKey_kupsert_self, hlook2]
    have hlen3 : db3.nodes.length ≤ 1000 := by
      rw [h3nodes, kupsert_length_of_some _ _ _ _ _ hlook2, h2nodes,
        updAt_length]
      exact hlen1
    simpa [get_unsynced_records] using
      mem_unsynced_take db3.nodes nid _ hlook3 rfl hlen3

theorem claim3_witness :
    (({} : LocalDB).nodes.length < 1000) ∧
    "!aa11" ∈ ((get_unsynced_records (upsert_node {} "!aa11"
      { long_name := some "Alpha" } 1) 1000).nodes.map Prod.fst) :=
  ⟨by decide, (claim3_unsynced_tracking {} "!aa11"
    { long_name := some "Alpha" } {} 1 2 3 (by decide)).1⟩

/-- C4: the two-upsert scenario leaves long_name = "A" and
short_name = "B" over any prior store; in general, for a stored row every
scalar field settable through `upsert_node` is updated by
COALESCE(incoming, stored) — an incoming null never overwrites a stored
value, an incoming non-null wins — while last_seen is refreshed and
synced_at reset; the central `_upsert_nodes` merge applies the same
coalesce rule to the same six fields. -/
theorem claim4_coalesce (dbA dbB : LocalDB) (x : String) (A B : String)
    (ta tb tg : Nat) (p : NodeParams) (r : LNode)
    (h : lookupKey x dbB.nodes = some r) :
    ((lookupKey x (upsert_node (upsert_node dbA x { long_name := some A } ta)
        x { short_name := some B } tb).nodes).map LNode.long_name
      = some (some A)) ∧
    ((lookupKey x (upsert_node (upsert_node dbA x { long_name := some A } ta)
        x { short_name := some B } tb).nodes).map LNode.short_name
      = some (some B)) ∧
    (lookupKey x (upsert_node dbB x p tg).nodes
      = some { r with
          node_num := coalesce p.node_num r.node_num,
          long_name := coalesce p.long_name r.long_name,
          short_name := coalesce p.short_name r.short_name,
          hw_model := coalesce p.hw_model r.hw_model,
          firmware_version := coalesce p.firmware_version r.firmware_version,
          mac_addr := coalesce p.mac_addr r.mac_addr,
          last_seen := some tg, synced_at := none }) ∧
    (∀ (t : Nat) (rec : NodeRec) (row : CNode),
      (mergeCNode t rec row).node_num = coalesce rec.node_num row.node_num ∧
      (mergeCNode t rec row).long_name
        = coalesce rec.long_name row.long_name ∧
      (mergeCNode t rec row).short_name
        = coalesce rec.short_name row.short_name ∧
      (mergeCNode t rec row).hw_model = coalesce rec.hw_model row.hw_model ∧
      (mergeCNode t rec row).firmware_version
        = coalesce rec.firmware_version row.firmware_version ∧
      (mergeCNode t rec row).mac_addr
        = coalesce rec.mac_addr row.mac_addr) := by
  refine ⟨?_, ?_, ?_, ?_⟩
  · cases hx : lookupKey x dbA.nodes with
    | some v =>
      simp [upsert_node, lookupKey_kupsert_self, hx, mergeLNode, freshLNode,
        coalesce]
    | none =>
      simp [upsert_node, lookupKey_kupsert_self, hx, mergeLNode, freshLNode,
        coalesce]
  · cases hx : lookupKey x dbA.nodes with
    | some v =>
      simp [upsert_node, lookupKey_kupsert_self, hx, mergeLNode, freshLNode,
        coalesce]
    | none =>
      simp [upsert_node, lookupKey_kupsert_self, hx, mergeLNode, freshLNode,
        coalesce]
  · simp only [upsert_node]
    rw [lookupKey_kupsert_self, h]
    rfl
  · intro t rec row
    exact ⟨rfl, rfl, rfl, rfl, rfl, rfl⟩

/-- Stored local node row for the C4 witness. -/
def c4row : LNode := { long_name := some "Old", last_seen := some 1 }

/-- Local store for the C4 witness. -/
def c4db : LocalDB := { nodes := [("!xx33", c4row)] }

theorem claim4_witness :
    lookupKey "!xx33" c4db.nodes = some c4row ∧
    ((lookupKey "!xx33" (upsert_node (upsert_node c4db "!xx33"
        { long_name := some "A" } 1) "!xx33" { short_name := some "B" }
        2).nodes).map LNode.long_name = some (some "A")) ∧
    ((lookupKey "!xx33" (upsert_node (upsert_node c4db "!xx33"
        { long_name := some "A" } 1) "!xx33" { short_name := some "B" }
        2).nodes).map LNode.short_name = some (some "B")) :=
  ⟨by decide,
    (claim4_coalesce c4db c4db "!xx33" "A" "B" 1 2 3 {} c4row (by decide)).1,
    (claim4_coalesce c4db c4db "!xx33" "A" "B" 1 2 3 {} c4row
      (by decide)).2.1⟩

/-- C6: `mark_synced` preserves every table's row count; positionally, a
row whose identifier is listed comes back with only `synced_at` set to now
and every other field intact, a row whose identifier is not listed comes
back entirely unchanged; the empty argument is a complete no-op. -/
theorem claim6_mark_synced_frame (db : LocalDB) (rs : MarkRecords)
    (t : Nat) :
    ((mark_synced db rs t).nodes.length = db.nodes.length ∧
     (mark_synced db rs t).positions.length = db.positions.length ∧
     (mark_synced db rs t).device_metrics.length
       = db.device_metrics.length ∧
     (mark_synced db rs t).messages.length = db.messages.length ∧
     (mark_synced db rs t).gateways.length = db.gateways.length) ∧
    (∀ (i : Nat) (e : String × LNode), db.nodes[i]? = some e →
      (mark_synced db rs t).nodes[i]?
        = some (if e.1 ∈ rs.nodes
            then (e.1, { e.2 with synced_at := some t }) else e)) ∧
    (∀ (i : Nat) (r : LPosition), db.positions[i]? = some r →
      (mark_synced db rs t).positions[i]?
        = some (if r.id ∈ rs.positions
            then { r with synced_at := some t } else r)) ∧
    (∀ (i : Nat) (r : LDeviceMetrics), db.device_metrics[i]? = some r →
      (mark_synced db rs t).device_metrics[i]?
        = some (if r.id ∈ rs.device_metrics
            then { r with synced_at := some t } else r)) ∧
    (∀ (i : Nat) (r : LMessage), db.messages[i]? = some r →
      (mark_synced db rs t).messages[i]?
        = some (if r.id ∈ rs.messages
            then { r with synced_at := some t } else r)) ∧
    (∀ (i : Nat) (r : LGateway), db.gateways[i]? = some r →
      (mark_synced db rs t).gateways[i]?
        = some (if r.id ∈ rs.gateways
            then { r with synced_at := some t } else r)) ∧
    mark_synced db {} t = db := by
  refine ⟨⟨?_, ?_, ?_, ?_, ?_⟩, ?_, ?_, ?_, ?_, ?_, ?_⟩
  · by_cases h : rs.nodes = [] <;> simp [mark_synced, h]
  · by_cases h : rs.positions = [] <;> simp [mark_synced, h]
  · by_cases h : rs.device_metrics = [] <;> simp [mark_synced, h]
  · by_cases h : rs.messages = [] <;> simp [mark_synced, h]
  · by_cases h : rs.gateways = [] <;> simp [mark_synced, h]
  · intro i e he
    by_cases h : rs.nodes = []
    · simp [mark_synced, h, he]
    · simp [mark_synced, h, List.getElem?_map, he]
  · intro i r he
    by_cases h : rs.positions = []
    · simp [mark_synced, h, he]
    · simp [mark_synced, h, List.getElem?_map, he]
  · intro i r he
    by_cases h : rs.device_metrics = []
    · simp [mark_synced, h, he]
    · simp [mark_synced, h, List.getElem?_map, he]
  · intro i r he
    by_cases h : rs.messages = []
    · simp [mark_synced, h, he]
    · simp [mark_synced, h, List.getElem?_map, he]
  · intro i r he
    by_cases h : rs.gateways = []
    · simp [mark_synced, h, he]
    · simp [mark_synced, h, List.getElem?_map, he]
  · simp [mark_synced]

/-- Stored local node row for the C6 witness. -/
def c6row : LNode := { long_name := some "Alpha" }

/-- Stored local position row for the C6 witness (surrogate id 7). -/
def c6pos : LPosition := { id := 7, node_id := "!aa11", timestamp := 2 }

/-- Local store for the C6 witness. -/
def c6db : LocalDB := { nodes := [("!aa11", c6row)], positions := [c6pos] }

/-- Mark argument for the C6 witness: lists the node, and a position id (9)
that no stored row carries. -/
def c6rs : MarkRecords := { nodes := ["!aa11"], positions := [9] }

theorem claim6_witness :
    c6db.nodes[0]? = some ("!aa11", c6row) ∧
    (mark_synced c6db c6rs 5).nodes[0]?
      = some ("!aa11", { c6row with synced_at := some 5 }) ∧
    c6db.positions[0]? = some c6pos ∧
    (mark_synced c6db c6rs 5).positions[0]? = some c6pos := by
  refine ⟨rfl, ?_, rfl, ?_⟩
  · have h := (claim6_mark_synced_frame c6db c6rs 5).2.1 0
      ("!aa11", c6row) rfl
    simpa [c6rs] using h
  · have h := (claim6_mark_synced_frame c6db c6rs 5).2.2.1 0 c6pos rfl
    simpa [c6rs, c6pos] using h

end MeshMon
